import Mathlib

/-!
Verification of the Bored API client (`src/lib.rs`, module `boredapi`).

The Rust source is shallowly embedded:
* `serde_json::Value` becomes the inductive `Json`; `serde_json::Number` becomes
  `JNumber` with the three serde storage variants (`PosInt` as `Nat`, `NegInt`
  as `Int`, `Float` as `Rat` — the f64 payloads are only carried through and
  compared against exactly representable bounds, so rationals model them
  faithfully for every property proved here).
* `u64` values become `Nat` (with the explicit `< 2 ^ 64` bound where the code
  checks overflow, namely in `str::parse::<u64>`).
* `url::Url::parse` is an external library collaborator; it is abstracted as a
  parameter `url_parse : String → Option String` of the decoder, with a parsed
  URL represented by an opaque `String`.
* The HTTP transport is abstracted as a parameter
  `transport : CriteriaSelection → Except String Json` of the client facade;
  an `Except.error` models both a failed send and a body that fails JSON
  decoding, each of which the source wraps as `Error::HttpError`.
* `HashMap<String, String>` (the builder's `parameters`) becomes the extensional
  map `String → Option String`, with `insert` as pointwise update.
-/

namespace Boredapi

/-- Storage variants of `serde_json::Number`: an unsigned integer, a negative
integer, or a finite double. -/
inductive JNumber where
  | posInt (n : Nat)
  | negInt (i : Int)
  | float (q : Rat)
deriving DecidableEq

/-- Embedding of `serde_json::Value`. -/
inductive Json where
  | null
  | bool (b : Bool)
  | num (n : JNumber)
  | str (s : String)
  | arr (elems : List Json)
  | obj (fields : List (String × Json))

/-- Key lookup in a JSON object's field map (`serde_json::Map::get`); object
keys are unique on the wire, the first binding is returned. -/
def lookupField : List (String × Json) → String → Option Json
  | [], _ => none
  | (k, v) :: rest, key => if k = key then some v else lookupField rest key

/-- `serde_json::Value::get` with a string index: a lookup on an object,
`None` on every other variant. -/
def Json.get (j : Json) (key : String) : Option Json :=
  match j with
  | .obj fields => lookupField fields key
  | _ => none

/-- `serde_json::Value::as_str`. -/
def Json.as_str (j : Json) : Option String :=
  match j with
  | .str s => some s
  | _ => none

/-- `serde_json::Number::as_u64`: succeeds exactly on the unsigned-integer
storage variant. -/
def JNumber.as_u64 (n : JNumber) : Option Nat :=
  match n with
  | .posInt m => some m
  | _ => none

/-- The numeric value of a `serde_json::Number` as a rational (the image of
`Number::as_f64`, which succeeds on every variant). -/
def JNumber.toRat (n : JNumber) : Rat :=
  match n with
  | .posInt m => m
  | .negInt i => i
  | .float q => q

/-- `serde_json::Value::as_f64`: any number converts, everything else fails. -/
def Json.as_f64 (j : Json) : Option Rat :=
  match j with
  | .num n => some n.toRat
  | _ => none

/-- `serde_json::Value::as_u64`: defined on numbers stored as unsigned
integers only. -/
def Json.as_u64 (j : Json) : Option Nat :=
  match j with
  | .num n => n.as_u64
  | _ => none

/-- Whether the top level of a JSON value is an object. -/
def Json.isObj (j : Json) : Bool :=
  match j with
  | .obj _ => true
  | _ => false

/-- Represents a type of activity in Bored API (`ActivityType`, nine
variants). -/
inductive ActivityType where
  | Education
  | Recreational
  | Social
  | Diy
  | Charity
  | Cooking
  | Relaxation
  | Music
  | Busywork
deriving DecidableEq

/-- The `strum` `ToString` derive: each variant maps to its `serialize`
attribute string. -/
def ActivityType.to_string (t : ActivityType) : String :=
  match t with
  | .Education => "education"
  | .Recreational => "recreational"
  | .Social => "social"
  | .Diy => "diy"
  | .Charity => "charity"
  | .Cooking => "cooking"
  | .Relaxation => "relaxation"
  | .Music => "music"
  | .Busywork => "busywork"

/-- The `strum` `EnumString` derive (`FromStr`): exact, case-sensitive match
against the nine `serialize` strings, `none` otherwise. -/
def ActivityType.from_str (s : String) : Option ActivityType :=
  match s with
  | "education" => some .Education
  | "recreational" => some .Recreational
  | "social" => some .Social
  | "diy" => some .Diy
  | "charity" => some .Charity
  | "cooking" => some .Cooking
  | "relaxation" => some .Relaxation
  | "music" => some .Music
  | "busywork" => some .Busywork
  | _ => none

instance : ToString ActivityType := ⟨ActivityType.to_string⟩

/-- Combines all possible errors of the API wrapper (`Error`). The `reqwest`
error payload of `HttpError` is abstracted as a string. -/
inductive Error where
  | HttpError (e : String)
  | ApiError (s : String)
  | BadResponse
deriving DecidableEq

/-- Represents the Activity entity of Bored API (`Activity`); the zero-sized
`PhantomData` marker field is omitted. A parsed `url::Url` is represented by
an opaque `String`. -/
structure Activity where
  description : String
  accessibility : Rat
  activity_type : ActivityType
  participants : Nat
  price : Rat
  link : Option String
  key : Nat
deriving DecidableEq

/-- `Activity::new`. -/
def Activity.new (description : String) (accessibility : Rat)
    (activity_type : ActivityType) (participants : Nat) (price : Rat)
    (link : Option String) (key : Nat) : Activity :=
  ⟨description, accessibility, activity_type, participants, price, link, key⟩

/-- Digit loop of `str::parse::<u64>`: consume ASCII digits, reject any other
character, and reject overflow past `u64::MAX` exactly as the per-step
`checked_mul`/`checked_add` of the Rust implementation does. -/
def parse_u64_core : List Char → Nat → Option Nat
  | [], acc => some acc
  | c :: cs, acc =>
    if c.isDigit then
      let acc' := acc * 10 + (c.toNat - 48)
      if acc' < 18446744073709551616 then parse_u64_core cs acc' else none
    else none

/-- `str::parse::<u64>`: optional leading `+`, then one or more ASCII digits,
value at most `u64::MAX`; anything else is a parse error (`none`). -/
def parse_u64 (s : String) : Option Nat :=
  match s.data with
  | [] => none
  | '+' :: cs => if cs.isEmpty then none else parse_u64_core cs 0
  | cs => parse_u64_core cs 0

/-- The `extract_field!` macro of `BoredApi::deserialize`: look the field up
(absence is `BadResponse`), then apply the extractor (a failed coercion is
`BadResponse`). -/
def extract_field {α : Type} (json : Json) (name : String)
    (extractor : Json → Option α) : Except Error α :=
  match json.get name with
  | none => Except.error Error.BadResponse
  | some v =>
    match extractor v with
    | none => Except.error Error.BadResponse
    | some a => Except.ok a

/-- The inline `link` match of `BoredApi::deserialize` (lines 203–206): an
empty extracted string becomes `None`; otherwise the string is handed to
`url::Url::parse` (abstracted as `url_parse`), a parse failure becoming
`BadResponse`. -/
def parse_link (url_parse : String → Option String) (s : String) :
    Except Error (Option String) :=
  match s with
  | "" => Except.ok none
  | s =>
    match url_parse s with
    | some u => Except.ok (some u)
    | none => Except.error Error.BadResponse

/-- `BoredApi::deserialize`: the `error` key is inspected first; otherwise the
required fields are extracted strictly, in the order the arguments of
`Activity::new` are written, short-circuiting on the first failure. -/
def deserialize (url_parse : String → Option String) (json : Json) :
    Except Error Activity :=
  match json.get "error" with
  | some err =>
    Except.error
      (match err.as_str with
       | some s => Error.ApiError s
       | none => Error.BadResponse)
  | none =>
    match extract_field json "activity" Json.as_str with
    | .error e => .error e
    | .ok description =>
    match extract_field json "accessibility" Json.as_f64 with
    | .error e => .error e
    | .ok accessibility =>
    match extract_field json "type" Json.as_str with
    | .error e => .error e
    | .ok type_str =>
    match ActivityType.from_str type_str with
    | none => .error Error.BadResponse
    | some activity_type =>
    match extract_field json "participants" Json.as_u64 with
    | .error e => .error e
    | .ok participants =>
    match extract_field json "price" Json.as_f64 with
    | .error e => .error e
    | .ok price =>
    match extract_field json "link" Json.as_str with
    | .error e => .error e
    | .ok link_str =>
    match parse_link url_parse link_str with
    | .error e => .error e
    | .ok link =>
    match extract_field json "key" Json.as_str with
    | .error e => .error e
    | .ok key_str =>
    match parse_u64 key_str with
    | none => .error Error.BadResponse
    | some key =>
      Except.ok (Activity.new description accessibility activity_type
        participants price link key)

/-- `ActivityCriterion<T>`: a wire parameter name paired with a validation
predicate. -/
structure ActivityCriterion (T : Type) where
  name : String
  validate : T → Bool

/-- `EXACT_ACCESSIBILITY`: wire name `accessibility`, valid on `(0.0..1.0)`,
i.e. `0 ≤ v < 1`. -/
def EXACT_ACCESSIBILITY : ActivityCriterion Rat :=
  ⟨"accessibility", fun v => decide (0 ≤ v ∧ v < 1)⟩

/-- `EXACT_PRICE`: wire name `price`, valid on `0 ≤ v < 1`. -/
def EXACT_PRICE : ActivityCriterion Rat :=
  ⟨"price", fun v => decide (0 ≤ v ∧ v < 1)⟩

/-- `KEY`: wire name `key`, valid on the half-open range
`1000000 ≤ v < 9999999`. -/
def KEY : ActivityCriterion Nat :=
  ⟨"key", fun v => decide (1000000 ≤ v ∧ v < 9999999)⟩

/-- `MAX_ACCESSIBILITY`: wire name `maxaccessibility`, valid on `0 ≤ v < 1`. -/
def MAX_ACCESSIBILITY : ActivityCriterion Rat :=
  ⟨"maxaccessibility", fun v => decide (0 ≤ v ∧ v < 1)⟩

/-- `MAX_PRICE`: wire name `maxprice`, valid on `0 ≤ v < 1`. -/
def MAX_PRICE : ActivityCriterion Rat :=
  ⟨"maxprice", fun v => decide (0 ≤ v ∧ v < 1)⟩

/-- `MIN_ACCESSIBILITY`: wire name `minaccessibility`, valid on `0 ≤ v < 1`. -/
def MIN_ACCESSIBILITY : ActivityCriterion Rat :=
  ⟨"minaccessibility", fun v => decide (0 ≤ v ∧ v < 1)⟩

/-- `MIN_PRICE`: wire name `minprice`, valid on `0 ≤ v < 1`. -/
def MIN_PRICE : ActivityCriterion Rat :=
  ⟨"minprice", fun v => decide (0 ≤ v ∧ v < 1)⟩

/-- `PARTICIPANTS`: wire name `participants`; the source predicate is
`(0..u64::MAX).contains(&v)`, the half-open range `0 ≤ v < u64::MAX` with the
upper end excluded. -/
def PARTICIPANTS : ActivityCriterion Nat :=
  ⟨"participants", fun v => decide (0 ≤ v ∧ v < 18446744073709551615)⟩

/-- `TYPE`: wire name `type`, every variant valid. -/
def TYPE : ActivityCriterion ActivityType :=
  ⟨"type", fun _ => true⟩

/-- `CriteriaSelection`: the builder's `HashMap<String, String>` modelled
extensionally as a partial map from wire names to wire values. -/
structure CriteriaSelection where
  parameters : String → Option String

/-- `CriteriaSelection::set`: stringify the value with its `ToString`
instance and insert/overwrite the binding at the criterion's wire name
(`HashMap::insert`). The criterion's validation predicate is not consulted. -/
def CriteriaSelection.set {T : Type} [ToString T] (self : CriteriaSelection)
    (criterion : ActivityCriterion T) (value : T) : CriteriaSelection :=
  ⟨fun k => if k = criterion.name then some (toString value)
            else self.parameters k⟩

/-- `CriteriaSelection::default`: the empty parameter map. -/
def CriteriaSelection.default : CriteriaSelection :=
  ⟨fun _ => none⟩

/-- The query parameter set `by_criteria` builds from a selection closure:
the closure applied to a fresh default selection. -/
def query_of (selection : CriteriaSelection → CriteriaSelection) :
    CriteriaSelection :=
  selection CriteriaSelection.default

/-- `BoredApi::by_criteria`: build the query, run the transport collaborator
(whose failures — a failed send or a body that is not JSON — surface as
`HttpError`), and hand a JSON body to `deserialize`. -/
def by_criteria (url_parse : String → Option String)
    (transport : CriteriaSelection → Except String Json)
    (selection : CriteriaSelection → CriteriaSelection) :
    Except Error Activity :=
  match transport (query_of selection) with
  | Except.error e => Except.error (Error.HttpError e)
  | Except.ok val => deserialize url_parse val

/-- `BoredApi::random`: literally `by_criteria` applied to the identity
closure `|s| s`. -/
def random (url_parse : String → Option String)
    (transport : CriteriaSelection → Except String Json) :
    Except Error Activity :=
  by_criteria url_parse transport (fun s => s)

/-! Helper lemmas about the decoder. -/

theorem extract_field_error {α : Type} {j : Json} {n : String}
    {ex : Json → Option α} {e : Error}
    (h : extract_field j n ex = Except.error e) : e = Error.BadResponse := by
  unfold extract_field at h
  split at h
  · injection h with h2
    exact h2.symm
  · split at h
    · injection h with h2
      exact h2.symm
    · exact Except.noConfusion h

theorem parse_link_error {up : String → Option String} {s : String} {e : Error}
    (h : parse_link up s = Except.error e) : e = Error.BadResponse := by
  unfold parse_link at h
  split at h
  · exact Except.noConfusion h
  · split at h
    · exact Except.noConfusion h
    · injection h with h2
      exact h2.symm

theorem deserialize_ok_inv {up : String → Option String} {j : Json}
    {a : Activity} (h : deserialize up j = Except.ok a) :
    j.get "error" = none ∧
    extract_field j "activity" Json.as_str = Except.ok a.description ∧
    extract_field j "accessibility" Json.as_f64 = Except.ok a.accessibility ∧
    (∃ ts, extract_field j "type" Json.as_str = Except.ok ts ∧
      ActivityType.from_str ts = some a.activity_type) ∧
    extract_field j "participants" Json.as_u64 = Except.ok a.participants ∧
    extract_field j "price" Json.as_f64 = Except.ok a.price ∧
    (∃ ls, extract_field j "link" Json.as_str = Except.ok ls ∧
      parse_link up ls = Except.ok a.link) ∧
    (∃ ks, extract_field j "key" Json.as_str = Except.ok ks ∧
      parse_u64 ks = some a.key) := by
  unfold deserialize at h
  split at h
  · exact Except.noConfusion h
  rename_i hErr
  split at h
  · exact Except.noConfusion h
  rename_i d hAct
  split at h
  · exact Except.noConfusion h
  rename_i acc hAcc
  split at h
  · exact Except.noConfusion h
  rename_i ts hTs
  split at h
  · exact Except.noConfusion h
  rename_i ty hTy
  split at h
  · exact Except.noConfusion h
  rename_i p hPart
  split at h
  · exact Except.noConfusion h
  rename_i pr hPrice
  split at h
  · exact Except.noConfusion h
  rename_i ls hLs
  split at h
  · exact Except.noConfusion h
  rename_i lv hLink
  split at h
  · exact Except.noConfusion h
  rename_i ks hKs
  split at h
  · exact Except.noConfusion h
  rename_i k hKey
  injection h with h2
  subst h2
  exact ⟨hErr, hAct, hAcc, ⟨ts, hTs, hTy⟩, hPart, hPrice, ⟨ls, hLs, hLink⟩,
    ⟨ks, hKs, hKey⟩⟩

theorem deserialize_err_badResponse {up : String → Option String} {j : Json}
    {e : Error} (hErr : j.get "error" = none)
    (h : deserialize up j = Except.error e) : e = Error.BadResponse := by
  unfold deserialize at h
  rw [hErr] at h
  repeat' split at h
  all_goals try exact Except.noConfusion h
  all_goals injection h with h2
  all_goals subst h2
  all_goals first
    | rfl
    | exact extract_field_error (by assumption)
    | exact parse_link_error (by assumption)
    | simp_all

theorem deserialize_ok_of {up : String → Option String} {j : Json}
    {d : String} {acc : Rat} {ts : String} {ty : ActivityType} {p : Nat}
    {pr : Rat} {ls : String} {lv : Option String} {ks : String} {k : Nat}
    (h0 : j.get "error" = none)
    (h1 : extract_field j "activity" Json.as_str = Except.ok d)
    (h2 : extract_field j "accessibility" Json.as_f64 = Except.ok acc)
    (h3 : extract_field j "type" Json.as_str = Except.ok ts)
    (h4 : ActivityType.from_str ts = some ty)
    (h5 : extract_field j "participants" Json.as_u64 = Except.ok p)
    (h6 : extract_field j "price" Json.as_f64 = Except.ok pr)
    (h7 : extract_field j "link" Json.as_str = Except.ok ls)
    (h8 : parse_link up ls = Except.ok lv)
    (h9 : extract_field j "key" Json.as_str = Except.ok ks)
    (h10 : parse_u64 ks = some k) :
    deserialize up j = Except.ok (Activity.new d acc ty p pr lv k) := by
  unfold deserialize
  simp only [h0, h1, h2, h3, h4, h5, h6, h7, h8, h9, h10]

theorem from_str_sound {s : String} {t : ActivityType}
    (h : ActivityType.from_str s = some t) : ActivityType.to_string t = s := by
  unfold ActivityType.from_str at h
  split at h
  all_goals first
    | exact Option.noConfusion h
    | (injection h with h2; subst h2; simp_all [ActivityType.to_string])

theorem parse_link_empty (up : String → Option String) :
    parse_link up "" = Except.ok none := rfl

theorem parse_link_some {up : String → Option String} {s u : String}
    (hs : s ≠ "") (h : up s = some u) :
    parse_link up s = Except.ok (some u) := by
  unfold parse_link
  split
  · simp_all
  · rw [h]

theorem parse_link_none {up : String → Option String} {s : String}
    (hs : s ≠ "") (h : up s = none) :
    parse_link up s = Except.error Error.BadResponse := by
  unfold parse_link
  split
  · simp_all
  · rw [h]

/-! Concrete wire payloads used as test inputs. -/

/-- Concrete scenario 1 of the specification: a full success-shaped payload
with an empty `link`. -/
def scenario1 : Json :=
  Json.obj [("activity", Json.str "Learn Rust"),
            ("accessibility", Json.num (JNumber.float ((3 : Rat) / 10))),
            ("type", Json.str "education"),
            ("participants", Json.num (JNumber.posInt 1)),
            ("price", Json.num (JNumber.float 0)),
            ("key", Json.str "3943506"),
            ("link", Json.str "")]

/-- Concrete scenario 2 of the specification: a service-reported error. -/
def scenario2 : Json :=
  Json.obj [("error",
             Json.str "No activity found with the specified parameters")]

/-- Concrete scenario 3 of the specification: an unrecognized `type` string. -/
def scenario3 : Json :=
  Json.obj [("activity", Json.str "X"),
            ("accessibility", Json.num (JNumber.float ((3 : Rat) / 10))),
            ("type", Json.str "skydiving"),
            ("participants", Json.num (JNumber.posInt 1)),
            ("price", Json.num (JNumber.float 0)),
            ("key", Json.str "1")]

/-- Scenario 1 with the required `activity` field removed. -/
def missing_activity_payload : Json :=
  Json.obj [("accessibility", Json.num (JNumber.float ((3 : Rat) / 10))),
            ("type", Json.str "education"),
            ("participants", Json.num (JNumber.posInt 1)),
            ("price", Json.num (JNumber.float 0)),
            ("key", Json.str "3943506"),
            ("link", Json.str "")]

/-- Scenario 1 with the `link` field removed entirely. -/
def no_link_payload : Json :=
  Json.obj [("activity", Json.str "Learn Rust"),
            ("accessibility", Json.num (JNumber.float ((3 : Rat) / 10))),
            ("type", Json.str "education"),
            ("participants", Json.num (JNumber.posInt 1)),
            ("price", Json.num (JNumber.float 0)),
            ("key", Json.str "3943506")]

/-- Scenario 1 with a non-empty `link` string. -/
def nonempty_link_payload : Json :=
  Json.obj [("activity", Json.str "Learn Rust"),
            ("accessibility", Json.num (JNumber.float ((3 : Rat) / 10))),
            ("type", Json.str "education"),
            ("participants", Json.num (JNumber.posInt 1)),
            ("price", Json.num (JNumber.float 0)),
            ("key", Json.str "3943506"),
            ("link", Json.str "http://www.boredapi.com/about")]

/-- Scenario 1 with `participants` wired as the non-integral number `1.5`. -/
def bad_participants_payload : Json :=
  Json.obj [("activity", Json.str "Learn Rust"),
            ("accessibility", Json.num (JNumber.float ((3 : Rat) / 10))),
            ("type", Json.str "education"),
            ("participants", Json.num (JNumber.float ((3 : Rat) / 2))),
            ("price", Json.num (JNumber.float 0)),
            ("key", Json.str "3943506"),
            ("link", Json.str "")]

/-! The claims. -/

/-- C1: for an object payload without an `error` key, the absence or wrong
JSON type of any required field (activity, accessibility, type, participants,
price, key) makes `deserialize` return `BadResponse`; and whenever it returns
an `Activity`, every field of that activity is the successfully extracted wire
value — no partially populated entity is observable. -/
theorem spec_c1 :
    (∀ (url_parse : String → Option String) (j : Json),
      j.get "error" = none →
      (extract_field j "activity" Json.as_str = Except.error Error.BadResponse ∨
       extract_field j "accessibility" Json.as_f64 =
         Except.error Error.BadResponse ∨
       extract_field j "type" Json.as_str = Except.error Error.BadResponse ∨
       extract_field j "participants" Json.as_u64 =
         Except.error Error.BadResponse ∨
       extract_field j "price" Json.as_f64 = Except.error Error.BadResponse ∨
       extract_field j "key" Json.as_str = Except.error Error.BadResponse) →
      deserialize url_parse j = Except.error Error.BadResponse) ∧
    (∀ (url_parse : String → Option String) (j : Json) (a : Activity),
      deserialize url_parse j = Except.ok a →
      extract_field j "activity" Json.as_str = Except.ok a.description ∧
      extract_field j "accessibility" Json.as_f64 = Except.ok a.accessibility ∧
      (∃ ts, extract_field j "type" Json.as_str = Except.ok ts ∧
        ActivityType.from_str ts = some a.activity_type) ∧
      extract_field j "participants" Json.as_u64 = Except.ok a.participants ∧
      extract_field j "price" Json.as_f64 = Except.ok a.price ∧
      (∃ ks, extract_field j "key" Json.as_str = Except.ok ks ∧
        parse_u64 ks = some a.key)) := by
  constructor
  · intro up j hErr hmiss
    cases hr : deserialize up j with
    | ok a =>
      exfalso
      obtain ⟨_, h1, h2, ⟨ts, h3, _⟩, h5, h6, _, ⟨ks, h9, _⟩⟩ :=
        deserialize_ok_inv hr
      rcases hmiss with hm | hm | hm | hm | hm | hm
      · rw [hm] at h1; exact Except.noConfusion h1
      · rw [hm] at h2; exact Except.noConfusion h2
      · rw [hm] at h3; exact Except.noConfusion h3
      · rw [hm] at h5; exact Except.noConfusion h5
      · rw [hm] at h6; exact Except.noConfusion h6
      · rw [hm] at h9; exact Except.noConfusion h9
    | error e =>
      rw [deserialize_err_badResponse hErr hr]
  · intro up j a h
    obtain ⟨_, h1, h2, h3, h5, h6, _, hk⟩ := deserialize_ok_inv h
    exact ⟨h1, h2, h3, h5, h6, hk⟩

/-- C1 witness: a payload missing `activity` decodes to `BadResponse`. -/
theorem spec_c1_witness :
    deserialize (fun s => some s) missing_activity_payload =
      Except.error Error.BadResponse :=
  spec_c1.1 (fun s => some s) missing_activity_payload rfl (Or.inl rfl)

/-- C2: when the top level carries an `error` key, no field extraction is
attempted: a textual value `s` yields `ApiError s`, a non-textual value yields
`BadResponse`. -/
theorem spec_c2 (url_parse : String → Option String) (j err : Json)
    (h : j.get "error" = some err) :
    (∀ s, err.as_str = some s →
      deserialize url_parse j = Except.error (Error.ApiError s)) ∧
    (err.as_str = none →
      deserialize url_parse j = Except.error Error.BadResponse) := by
  constructor
  · intro s hs
    unfold deserialize
    simp only [h, hs]
  · intro hs
    unfold deserialize
    simp only [h, hs]

/-- C2 witness: concrete scenario 2 carries its exact error text. -/
theorem spec_c2_witness :
    deserialize (fun s => some s) scenario2 =
      Except.error
        (Error.ApiError "No activity found with the specified parameters") :=
  (spec_c2 (fun s => some s) scenario2
    (Json.str "No activity found with the specified parameters") rfl).1 _ rfl

/-- C3: encoding any of the nine `ActivityType` variants to its wire string
and decoding it back round-trips; any string that is no variant's wire string
fails to decode; and an unrecognized `type` string makes the decoder return
`BadResponse`. -/
theorem spec_c3 :
    (∀ t : ActivityType,
      ActivityType.from_str (ActivityType.to_string t) = some t) ∧
    (∀ s : String, (∀ t : ActivityType, s ≠ ActivityType.to_string t) →
      ActivityType.from_str s = none) ∧
    (∀ (url_parse : String → Option String) (j : Json) (ts : String),
      j.get "error" = none →
      extract_field j "type" Json.as_str = Except.ok ts →
      ActivityType.from_str ts = none →
      deserialize url_parse j = Except.error Error.BadResponse) := by
  refine ⟨?_, ?_, ?_⟩
  · intro t
    cases t <;> rfl
  · intro s h
    cases hr : ActivityType.from_str s with
    | none => rfl
    | some t => exact absurd (from_str_sound hr).symm (h t)
  · intro up j ts hErr hts hnone
    cases hr : deserialize up j with
    | ok a =>
      exfalso
      obtain ⟨_, _, _, ⟨ts2, hts2, hty⟩, _⟩ := deserialize_ok_inv hr
      rw [hts] at hts2
      injection hts2 with h2
      subst h2
      rw [hnone] at hty
      exact Option.noConfusion hty
    | error e =>
      rw [deserialize_err_badResponse hErr hr]

/-- C3 witness: concrete scenario 3 — the unrecognized type string
`skydiving` decodes to `BadResponse`. -/
theorem spec_c3_witness :
    deserialize (fun s => some s) scenario3 = Except.error Error.BadResponse :=
  spec_c3.2.2 (fun s => some s) scenario3 "skydiving" rfl rfl rfl

/-- C4 counterexample: a payload that is success-shaped in every respect but
has no `link` field at all decodes to `BadResponse`, not to a success with
`link = None` — the claim's "absent … → no link" is false on the code, which
requires the field's presence. -/
theorem spec_c4_cex :
    deserialize (fun s => some s) no_link_payload =
      Except.error Error.BadResponse := rfl

/-- C4 (amended): the `link` field is required; an absent or non-string
`link` makes decoding return `BadResponse`. A present empty string decodes to
no link; a present non-empty string is handed to the URL parser — a parse
failure yields `BadResponse` and a parse success yields that URL. -/
theorem spec_c4 :
    (∀ (url_parse : String → Option String) (j : Json),
      j.get "error" = none →
      extract_field j "link" Json.as_str = Except.error Error.BadResponse →
      deserialize url_parse j = Except.error Error.BadResponse) ∧
    (∀ (url_parse : String → Option String) (j : Json) (d : String) (acc : Rat)
      (ts : String) (ty : ActivityType) (p : Nat) (pr : Rat) (ks : String)
      (k : Nat),
      j.get "error" = none →
      extract_field j "activity" Json.as_str = Except.ok d →
      extract_field j "accessibility" Json.as_f64 = Except.ok acc →
      extract_field j "type" Json.as_str = Except.ok ts →
      ActivityType.from_str ts = some ty →
      extract_field j "participants" Json.as_u64 = Except.ok p →
      extract_field j "price" Json.as_f64 = Except.ok pr →
      extract_field j "link" Json.as_str = Except.ok "" →
      extract_field j "key" Json.as_str = Except.ok ks →
      parse_u64 ks = some k →
      deserialize url_parse j = Except.ok (Activity.new d acc ty p pr none k)) ∧
    (∀ (url_parse : String → Option String) (j : Json) (ls : String),
      j.get "error" = none →
      extract_field j "link" Json.as_str = Except.ok ls →
      ls ≠ "" →
      url_parse ls = none →
      deserialize url_parse j = Except.error Error.BadResponse) ∧
    (∀ (url_parse : String → Option String) (j : Json) (d : String) (acc : Rat)
      (ts : String) (ty : ActivityType) (p : Nat) (pr : Rat) (ls u : String)
      (ks : String) (k : Nat),
      j.get "error" = none →
      extract_field j "activity" Json.as_str = Except.ok d →
      extract_field j "accessibility" Json.as_f64 = Except.ok acc →
      extract_field j "type" Json.as_str = Except.ok ts →
      ActivityType.from_str ts = some ty →
      extract_field j "participants" Json.as_u64 = Except.ok p →
      extract_field j "price" Json.as_f64 = Except.ok pr →
      extract_field j "link" Json.as_str = Except.ok ls →
      ls ≠ "" →
      url_parse ls = some u →
      extract_field j "key" Json.as_str = Except.ok ks →
      parse_u64 ks = some k →
      deserialize url_parse j =
        Except.ok (Activity.new d acc ty p pr (some u) k)) := by
  refine ⟨?_, ?_, ?_, ?_⟩
  · intro up j hErr hm
    cases hr : deserialize up j with
    | ok a =>
      exfalso
      obtain ⟨_, _, _, _, _, _, ⟨ls, hls, _⟩, _⟩ := deserialize_ok_inv hr
      rw [hm] at hls
      exact Except.noConfusion hls
    | error e =>
      rw [deserialize_err_badResponse hErr hr]
  · intro up j d acc ts ty p pr ks k h0 h1 h2 h3 h4 h5 h6 h7 h9 h10
    exact deserialize_ok_of h0 h1 h2 h3 h4 h5 h6 h7 (parse_link_empty up)
      h9 h10
  · intro up j ls hErr hls hne hnone
    cases hr : deserialize up j with
    | ok a =>
      exfalso
      obtain ⟨_, _, _, _, _, _, ⟨ls2, hls2, hpl⟩, _⟩ := deserialize_ok_inv hr
      rw [hls] at hls2
      injection hls2 with h2
      subst h2
      rw [parse_link_none hne hnone] at hpl
      exact Except.noConfusion hpl
    | error e =>
      rw [deserialize_err_badResponse hErr hr]
  · intro up j d acc ts ty p pr ls u ks k h0 h1 h2 h3 h4 h5 h6 h7 hne hu h9 h10
    exact deserialize_ok_of h0 h1 h2 h3 h4 h5 h6 h7 (parse_link_some hne hu)
      h9 h10

/-- C4 witness: with a URL parser that rejects everything, a payload carrying
the non-empty link `http://www.boredapi.com/about` decodes to `BadResponse`;
with one that accepts it, the same payload decodes successfully carrying the
parsed URL. -/
theorem spec_c4_witness :
    deserialize (fun _ => none) nonempty_link_payload =
      Except.error Error.BadResponse ∧
    deserialize (fun s => some s) nonempty_link_payload =
      Except.ok (Activity.new "Learn Rust" ((3 : Rat) / 10)
        ActivityType.Education 1 0 (some "http://www.boredapi.com/about")
        3943506) :=
  ⟨spec_c4.2.2.1 (fun _ => none) nonempty_link_payload
      "http://www.boredapi.com/about" rfl rfl (by decide) rfl,
   spec_c4.2.2.2 (fun s => some s) nonempty_link_payload "Learn Rust"
      ((3 : Rat) / 10) "education" ActivityType.Education 1 0
      "http://www.boredapi.com/about" "http://www.boredapi.com/about"
      "3943506" 3943506 rfl rfl rfl rfl rfl rfl rfl rfl (by decide) rfl rfl
      rfl⟩

/-- C5: a success-shaped payload (no `error` key, every extraction and
conversion succeeding) decodes to the activity assembled from exactly those
converted wire values; in particular concrete scenario 1 decodes to the
`Learn Rust` activity with no link and key `3943506`. -/
theorem spec_c5 :
    (∀ (url_parse : String → Option String) (j : Json) (d : String) (acc : Rat)
      (ts : String) (ty : ActivityType) (p : Nat) (pr : Rat) (ls : String)
      (lv : Option String) (ks : String) (k : Nat),
      j.get "error" = none →
      extract_field j "activity" Json.as_str = Except.ok d →
      extract_field j "accessibility" Json.as_f64 = Except.ok acc →
      extract_field j "type" Json.as_str = Except.ok ts →
      ActivityType.from_str ts = some ty →
      extract_field j "participants" Json.as_u64 = Except.ok p →
      extract_field j "price" Json.as_f64 = Except.ok pr →
      extract_field j "link" Json.as_str = Except.ok ls →
      parse_link url_parse ls = Except.ok lv →
      extract_field j "key" Json.as_str = Except.ok ks →
      parse_u64 ks = some k →
      deserialize url_parse j = Except.ok (Activity.new d acc ty p pr lv k)) ∧
    (∀ url_parse : String → Option String,
      deserialize url_parse scenario1 =
        Except.ok (Activity.new "Learn Rust" ((3 : Rat) / 10)
          ActivityType.Education 1 0 none 3943506)) := by
  constructor
  · intro up j d acc ts ty p pr ls lv ks k h0 h1 h2 h3 h4 h5 h6 h7 h8 h9 h10
    exact deserialize_ok_of h0 h1 h2 h3 h4 h5 h6 h7 h8 h9 h10
  · intro up
    rfl

/-- C5 witness: the general success statement applied to concrete
scenario 1. -/
theorem spec_c5_witness :
    deserialize (fun s => some s) scenario1 =
      Except.ok (Activity.new "Learn Rust" ((3 : Rat) / 10)
        ActivityType.Education 1 0 none 3943506) :=
  spec_c5.1 (fun s => some s) scenario1 "Learn Rust" ((3 : Rat) / 10)
    "education" ActivityType.Education 1 0 "" none "3943506" 3943506
    rfl rfl rfl rfl rfl rfl rfl rfl rfl rfl rfl

/-- C6: `random` is literally `by_criteria` applied to the identity closure —
the two behave identically for every transport and URL parser — and the query
parameter set the identity selection builds is the empty default map. -/
theorem spec_c6 :
    (∀ (url_parse : String → Option String)
      (transport : CriteriaSelection → Except String Json),
      random url_parse transport =
        by_criteria url_parse transport (fun s => s)) ∧
    (query_of (fun s => s) = CriteriaSelection.default) ∧
    (∀ k, (query_of (fun s => s)).parameters k = none) :=
  ⟨fun _ _ => rfl, rfl, fun _ => rfl⟩

/-- C7: `set` stringifies the value — whether or not it satisfies the
criterion's validation predicate, which `set` never consults — and
inserts/overwrites the binding at the criterion's wire name, leaving every
other binding unchanged; setting the same criterion twice keeps exactly the
last value (map semantics). -/
theorem spec_c7 {T : Type} [ToString T] (m : CriteriaSelection)
    (c : ActivityCriterion T) (v : T) :
    ((m.set c v).parameters c.name = some (toString v)) ∧
    (∀ k, k ≠ c.name → (m.set c v).parameters k = m.parameters k) ∧
    (∀ w, ((m.set c w).set c v).parameters c.name = some (toString v)) ∧
    (∀ w k, ((m.set c w).set c v).parameters k = (m.set c v).parameters k) ∧
    (∀ validate1 validate2 : T → Bool,
      m.set ⟨c.name, validate1⟩ v = m.set ⟨c.name, validate2⟩ v) := by
  refine ⟨?_, ?_, ?_, ?_, ?_⟩
  · simp [CriteriaSelection.set]
  · intro k hk
    simp [CriteriaSelection.set, hk]
  · intro w
    simp [CriteriaSelection.set]
  · intro w k
    by_cases h : k = c.name <;> simp [CriteriaSelection.set, h]
  · intro validate1 validate2
    rfl

/-- C7 witness: setting `PARTICIPANTS` twice on the empty selection leaves the
last value at wire name `participants` and no binding at `type`. -/
theorem spec_c7_witness :
    ((CriteriaSelection.default.set PARTICIPANTS 4).set PARTICIPANTS
        5).parameters "participants" = some "5" ∧
    (CriteriaSelection.default.set PARTICIPANTS 5).parameters "type" =
      none := by
  constructor
  · exact (spec_c7 (CriteriaSelection.default.set PARTICIPANTS 4)
      PARTICIPANTS 5).1
  · exact (spec_c7 CriteriaSelection.default PARTICIPANTS 5).2.1 "type"
      (by decide)

/-- C8 counterexample: the claim "the predicate returns true for every
unsigned integer" is false at `u64::MAX = 18446744073709551615`, because the
source range `(0..u64::MAX)` excludes its upper end. -/
theorem spec_c8_cex :
    PARTICIPANTS.validate 18446744073709551615 = false := by decide

/-- C8 (amended): the `PARTICIPANTS` validation predicate returns true for
every unsigned integer strictly below `u64::MAX`, and false at `u64::MAX`
itself (the source range is half-open). -/
theorem spec_c8 :
    (∀ v : Nat, v < 18446744073709551615 → PARTICIPANTS.validate v = true) ∧
    PARTICIPANTS.validate 18446744073709551615 = false := by
  constructor
  · intro v hv
    simp [PARTICIPANTS]
    exact hv
  · decide

/-- C8 witness: the amended predicate accepts the in-range value `1`. -/
theorem spec_c8_witness : PARTICIPANTS.validate 1 = true :=
  spec_c8.1 1 (by decide)

/-- C9: the decoder is total — on any JSON value whose top level is not an
object it returns `BadResponse` rather than crashing, and on every JSON value
whatsoever it returns either a classified error or an activity. -/
theorem spec_c9 :
    (∀ (url_parse : String → Option String) (j : Json),
      j.isObj = false →
      deserialize url_parse j = Except.error Error.BadResponse) ∧
    (∀ (url_parse : String → Option String) (j : Json),
      (∃ e, deserialize url_parse j = Except.error e) ∨
      (∃ a, deserialize url_parse j = Except.ok a)) := by
  constructor
  · intro up j hj
    have hget : ∀ k, j.get k = none := by
      intro k
      cases j <;> simp_all [Json.isObj, Json.get]
    simp [deserialize, extract_field, hget]
  · intro up j
    cases deserialize up j with
    | ok a => exact Or.inr ⟨a, rfl⟩
    | error e => exact Or.inl ⟨e, rfl⟩

/-- C9 witness: a JSON array and a JSON string both decode to
`BadResponse`. -/
theorem spec_c9_witness :
    deserialize (fun s => some s) (Json.arr []) =
      Except.error Error.BadResponse ∧
    deserialize (fun s => some s) (Json.str "no") =
      Except.error Error.BadResponse :=
  ⟨spec_c9.1 (fun s => some s) (Json.arr []) rfl,
   spec_c9.1 (fun s => some s) (Json.str "no") rfl⟩

/-- C10: `participants` is extracted with `as_u64`, which rejects every
number not stored as an unsigned integer — negative integers and floats in
particular — so an otherwise arbitrary payload without an `error` key whose
`participants` field is such a number decodes to `BadResponse`. -/
theorem spec_c10 :
    ((∀ i : Int, (JNumber.negInt i).as_u64 = none) ∧
     (∀ q : Rat, (JNumber.float q).as_u64 = none)) ∧
    (∀ (url_parse : String → Option String) (j : Json) (n : JNumber),
      j.get "error" = none →
      j.get "participants" = some (Json.num n) →
      n.as_u64 = none →
      deserialize url_parse j = Except.error Error.BadResponse) := by
  refine ⟨⟨fun _ => rfl, fun _ => rfl⟩, ?_⟩
  intro up j n hErr hp hn
  have hx : extract_field j "participants" Json.as_u64 =
      Except.error Error.BadResponse := by
    unfold extract_field
    rw [hp]
    simp [Json.as_u64, hn]
  cases hr : deserialize up j with
  | ok a =>
    exfalso
    obtain ⟨_, _, _, _, h5, _⟩ := deserialize_ok_inv hr
    rw [hx] at h5
    exact Except.noConfusion h5
  | error e =>
    rw [deserialize_err_badResponse hErr hr]

/-- C10 witness: a payload wiring `participants` as the non-integral number
`1.5` decodes to `BadResponse`. -/
theorem spec_c10_witness :
    deserialize (fun s => some s) bad_participants_payload =
      Except.error Error.BadResponse :=
  spec_c10.2 (fun s => some s) bad_participants_payload
    (JNumber.float ((3 : Rat) / 2)) rfl rfl rfl

end Boredapi
